import Mathlib

/-!
Shallow embedding of the ModelSpec Harness rule-evaluation and run-aggregation
pipeline, together with proofs of its specified properties.

Sources embedded here:
- `lib/evaluator.ts` : rule engine (`localRuleChecks`, `summarizePass`, helpers);
- `lib/schemas.ts`   : zod schema validation (`RuleSchema`, `SpecSchema`);
- `lib/ratecard.ts`  : cost estimation (`estimateCostUSD`);
- `lib/reporters.ts` : row sorting and row shaping for CSV/HTML/PDF;
- `app/api/run/route.ts` : per-job orchestration (generation, optional audit,
  error collection, row/JSONL emission).

Conventions of the embedding:
- TypeScript strings are Lean `String`s; all character-level processing is done
  on `String.data` (`List Char`) with structural recursion so that every
  definition evaluates inside the kernel.
- JavaScript `toLowerCase` is modelled by `Char.toLower` (ASCII case folding).
- JavaScript numbers used for money are modelled by `ℚ`; token counts,
  word counts and latencies by `Nat`.
- The external chat-completion capability and the JSON parser applied to the
  auditor's reply are parameters of the orchestrator model (the repository
  treats both as external collaborators).
-/

namespace ModelSpecHarness

/-! ## Data model (lib/evaluator.ts, lib/schemas.ts types) -/

/-- Severity levels of a rule / violation, from the `severity` enum in
`lib/schemas.ts` and the `Violation` type in `lib/evaluator.ts`. -/
inductive Severity where
  | critical
  | high
  | medium
  | low
  deriving DecidableEq

/-- The `Violation` record of `lib/evaluator.ts`. -/
structure Violation where
  rule_id : String
  severity : Severity
  evidence : String
  explanation : String
  deriving DecidableEq

/-- A compliance rule, the parsed form of `RuleSchema` in `lib/schemas.ts`.
The `type` field is kept as a raw string because the evaluator dispatches on
string equality at runtime; `severity` is non-optional because the schema
applies a `medium` default, so the evaluator's defensive `rule.severity ??
"medium"` is the identity on parsed rules. -/
structure Rule where
  id : String
  type : String
  severity : Severity
  fields : Option (List String)
  phrases : Option (List String)
  trigger : Option String
  required_phrase_any : Option (List String)
  max_words : Option Nat
  deriving DecidableEq

/-- A parsed spec (`SpecSchema` in `lib/schemas.ts`). -/
structure Spec where
  id : String
  domain : String
  description : Option String
  rules : List Rule
  deriving DecidableEq

/-- A parsed test case (`CaseSchema` in `lib/schemas.ts`); `context` carries
the schema's `""` default. -/
structure Case where
  id : String
  task : String
  context : String
  deriving DecidableEq

/-! ## Character-level helpers

The JavaScript string primitives used by the evaluator (`toLowerCase`,
`includes`, `trim`, `split(/\s+/)`) are modelled by structural functions on
`List Char` so that all of them reduce inside the kernel. -/

/-- Lower-cased character list of a string (JavaScript `toLowerCase`,
restricted to ASCII case folding). -/
def lowerChars (s : String) : List Char :=
  s.data.map Char.toLower

/-- Containment of `n` as a contiguous segment of `h` (JavaScript
`String.prototype.includes`). -/
def containsSeg (n : List Char) : List Char → Bool
  | [] => n.isEmpty
  | c :: t => n.isPrefixOf (c :: t) || containsSeg n t

/-- The `includesInsensitive` helper of `lib/evaluator.ts`: lower-case both
sides, report `false` for an empty needle, otherwise substring search. -/
def includesInsensitive (haystack needle : String) : Bool :=
  let h := lowerChars haystack
  let n := lowerChars needle
  if n.isEmpty then false else containsSeg n h

/-- Whitespace class of JavaScript's `\s` / `String.prototype.trim`
(ASCII whitespace plus NBSP; sufficient for the evaluator's inputs). -/
def isJsWsChar (c : Char) : Bool :=
  c == ' ' || c == '\t' || c == '\n' || c == '\r' ||
  c == Char.ofNat 11 || c == Char.ofNat 12 || c == Char.ofNat 0xa0

/-- JavaScript `String.prototype.trim` on character lists. -/
def trimChars (l : List Char) : List Char :=
  ((l.dropWhile isJsWsChar).reverse.dropWhile isJsWsChar).reverse

/-- Maximal non-whitespace runs of a character list: the non-empty tokens of
`s.split(/\s+/).filter(Boolean)`. The first argument accumulates the current
(reversed) token. -/
def wordTokens (cur : List Char) : List Char → List (List Char)
  | [] => if cur.isEmpty then [] else [cur.reverse]
  | c :: t =>
    if isJsWsChar c then
      if cur.isEmpty then wordTokens [] t else cur.reverse :: wordTokens [] t
    else
      wordTokens (c :: cur) t

/-- The `countWords` helper of `lib/evaluator.ts`: trim, return `0` for the
empty string, otherwise count whitespace-delimited non-empty tokens. -/
def countWords (text : String) : Nat :=
  let s := trimChars text.data
  if s.isEmpty then 0 else (wordTokens [] s).length

/-! ## Rule engine (lib/evaluator.ts) -/

/-- Loop body of the `required_fields` branch of `localRuleChecks`: walk the
configured fields; on the first field not found in the response push one
violation and `break`. -/
def requiredFieldsViolations (resp : String) (r : Rule) : List String → List Violation
  | [] => []
  | f :: rest =>
    if !includesInsensitive resp f then
      [{ rule_id := r.id, severity := r.severity, evidence := f,
         explanation := "Missing required field: " ++ f }]
    else
      requiredFieldsViolations resp r rest

/-- Explanation string of a `must_admit_unknown` violation. -/
def mustAdmitExplanation (trigger : String) (required : List String) : String :=
  "Did not admit uncertainty for trigger \"" ++ trigger ++
    "\". Expected one of: " ++ String.intercalate ", " required

/-- Violations contributed by a single rule: one iteration of the `for` loop
of `localRuleChecks` in `lib/evaluator.ts` (each recognized branch ends with
`continue`; an unrecognized `type` falls through contributing nothing). -/
def checkRule (resp ctx : String) (wc : Nat) (r : Rule) : List Violation :=
  if r.type = "required_fields" then
    requiredFieldsViolations resp r (r.fields.getD [])
  else if r.type = "forbidden_phrases" then
    match (r.phrases.getD []).find? (fun p => includesInsensitive resp p) with
    | some hit =>
      [{ rule_id := r.id, severity := r.severity, evidence := hit,
         explanation := "Contains forbidden phrase: \"" ++ hit ++ "\"" }]
    | none => []
  else if r.type = "must_admit_unknown" then
    match r.trigger with
    | some trigger =>
      if trigger != "" && includesInsensitive ctx trigger then
        if !((r.required_phrase_any.getD []).any (fun p => includesInsensitive resp p)) &&
            !(r.required_phrase_any.getD []).isEmpty then
          [{ rule_id := r.id, severity := r.severity, evidence := trigger,
             explanation := mustAdmitExplanation trigger (r.required_phrase_any.getD []) }]
        else []
      else []
    | none => []
  else if r.type = "max_words" then
    match r.max_words with
    | some m =>
      if wc > m then
        [{ rule_id := r.id, severity := r.severity, evidence := toString wc,
           explanation := "Response exceeds max word count (" ++ toString wc ++
             " > " ++ toString m ++ ")." }]
      else []
    | none => []
  else []

/-- The run context string searched by `must_admit_unknown`:
`` `${safeString(c.task)} ${safeString(c.context)}` `` in `localRuleChecks`. -/
def caseCtx (c : Case) : String :=
  c.task ++ " " ++ c.context

/-- The `localRuleChecks` function of `lib/evaluator.ts`: evaluate every rule
of the spec against the response, accumulating the per-rule violations in
rule order. -/
def localRuleChecks (spec : Spec) (c : Case) (response : String) : List Violation :=
  spec.rules.flatMap (checkRule response (caseCtx c) (countWords response))

/-- The `summarizePass` function of `lib/evaluator.ts`: a case passes iff no
violation has severity `critical`. -/
def summarizePass (violations : List Violation) : Bool :=
  !(violations.any (fun v => v.severity == Severity.critical))

/-! ## Schema validation (lib/schemas.ts)

Zod validation is embedded as Option-valued parsing functions from raw
(pre-schema) values to the parsed types above. A raw rule keeps every field optional and
untyped the way zod receives it. -/

/-- Raw (pre-validation) rule, as handed to `RuleSchema.safeParse`. -/
structure RawRule where
  id : String
  type : String
  severity : Option String
  fields : Option (List String)
  phrases : Option (List String)
  trigger : Option String
  required_phrase_any : Option (List String)
  max_words : Option Int
  deriving DecidableEq

/-- Raw (pre-validation) spec, as handed to `SpecSchema.safeParse`. -/
structure RawSpec where
  id : String
  domain : Option String
  description : Option String
  rules : List RawRule
  deriving DecidableEq

/-- The `type` enum of `RuleSchema`: exactly the four recognized rule types. -/
def ruleTypeOk (t : String) : Bool :=
  t == "required_fields" || t == "forbidden_phrases" ||
  t == "must_admit_unknown" || t == "max_words"

/-- The `severity` enum of `RuleSchema` with its `"medium"` default. -/
def parseSeverity : Option String → Option Severity
  | none => some Severity.medium
  | some "critical" => some Severity.critical
  | some "high" => some Severity.high
  | some "medium" => some Severity.medium
  | some "low" => some Severity.low
  | some _ => none

/-- Validation of the optional `max_words` field
(`z.number().int().positive().optional()`); integrality is carried by the
`Int` representation. -/
def parseMaxWords : Option Int → Option (Option Nat)
  | none => some none
  | some m => if 0 < m then some (some m.toNat) else none

/-- `RuleSchema.safeParse`: requires a non-empty `id`, a `type` drawn from the
four-element enum, a valid `severity` (defaulted to `medium`), and a positive
integral `max_words` when present. -/
def parseRule (r : RawRule) : Option Rule :=
  if r.id = "" then none
  else if !ruleTypeOk r.type then none
  else
    match parseSeverity r.severity, parseMaxWords r.max_words with
    | some sev, some mw =>
      some { id := r.id, type := r.type, severity := sev, fields := r.fields,
             phrases := r.phrases, trigger := r.trigger,
             required_phrase_any := r.required_phrase_any, max_words := mw }
    | _, _ => none

/-- `SpecSchema.safeParse`: non-empty `id`, a `domain` defaulting to
`"general"` (non-empty when present), and at least one rule, every rule
passing `RuleSchema`. -/
def parseSpec (s : RawSpec) : Option Spec :=
  if s.id = "" then none
  else
    match s.domain with
    | some d =>
      if d = "" then none
      else
        match s.rules.mapM parseRule with
        | some rules =>
          if rules.isEmpty then none
          else some { id := s.id, domain := d, description := s.description, rules := rules }
        | none => none
    | none =>
      match s.rules.mapM parseRule with
      | some rules =>
        if rules.isEmpty then none
        else some { id := s.id, domain := "general", description := s.description, rules := rules }
      | none => none

/-! ## Cost estimation (lib/ratecard.ts) -/

/-- A rate-card entry (`ModelRateSchema` in `lib/schemas.ts`). -/
structure ModelRate where
  model : String
  input_per_1k : ℚ
  output_per_1k : ℚ
  currency : String
  deriving DecidableEq

/-- Rounding to six decimal places, the model of
`Number(x.toFixed(6))` for the non-negative cost values produced here. -/
def round6 (q : ℚ) : ℚ :=
  (⌊q * 1000000 + 1 / 2⌋ : ℚ) / 1000000

/-- The `estimateCostUSD` function of `lib/ratecard.ts`: find the first rate
whose `model` string equals the model id exactly; without a match the
estimate is `0`, otherwise the per-1k-token linear formula rounded to six
decimals. -/
def estimateCostUSD (model : String) (inputTokens outputTokens : ℚ)
    (rates : List ModelRate) : ℚ :=
  match rates.find? (fun r => r.model == model) with
  | none => 0
  | some rate =>
    round6 ((inputTokens / 1000) * rate.input_per_1k +
      (outputTokens / 1000) * rate.output_per_1k)

/-! ## Reporters (lib/reporters.ts) -/

/-- One `(case, model)` outcome row (`ComplianceRow` in `lib/types.ts`);
`pass` is the 0/1 flag of the source. -/
structure ComplianceRow where
  case_id : String
  model : String
  pass : Nat
  critical : Nat
  high : Nat
  medium : Nat
  low : Nat
  latency_ms : Nat
  input_tokens : Nat
  output_tokens : Nat
  cost_usd : ℚ
  deriving DecidableEq

/-- Per-model aggregate of `RunBundle.totals.byModel`. -/
structure ByModelTotal where
  model : String
  total : Nat
  pass : Nat
  avg_latency_ms : ℚ
  cost_usd : ℚ
  deriving DecidableEq

/-- The `totals` component of a `RunBundle`. -/
structure RunTotals where
  totalCases : Nat
  totalRows : Nat
  byModel : List ByModelTotal
  deriving DecidableEq

/-- The `RunBundle` handed to the reporters (`lib/types.ts`). -/
structure RunBundle where
  runId : String
  specId : String
  createdAt : String
  rows : List ComplianceRow
  totals : RunTotals
  deriving DecidableEq

/-- Character class replaced by a space in the reporters' `safeText`
(the regex `[\u0000-\u0008\u000B\u000C\u000E-\u001F]`). -/
def strippedCtl (c : Char) : Bool :=
  c.toNat ≤ 0x08 || c.toNat == 0x0b || c.toNat == 0x0c ||
  (0x0e ≤ c.toNat && c.toNat ≤ 0x1f)

/-- The `safeText` helper of `toCSV` / `toPDF` in `lib/reporters.ts`:
replace every character of the class above by a space. -/
def safeText (s : String) : String :=
  String.mk (s.data.map (fun c => if strippedCtl c then ' ' else c))

/-- Any C0 control character (used to state what "control character" means,
independently of the implementation's replacement class). -/
def isControlChar (c : Char) : Bool :=
  c.toNat < 0x20

/-- Decimal digits of a natural number grouped in threes from the right
(JavaScript `toLocaleString("en-US")`); the input list is the reversed digit
list. -/
def group3 : List Char → List Char
  | a :: b :: c :: d :: t => a :: b :: c :: ',' :: group3 (d :: t)
  | l => l

/-- The `fmtInt` helper of the HTML/PDF reporters:
`Math.round(n).toLocaleString("en-US")` on a natural number. -/
def fmtIntStr (n : Nat) : String :=
  String.mk (group3 (toString n).data.reverse).reverse

/-- Left-pad with zeros to six characters (fractional part of `toFixed(6)`). -/
def padSix (s : String) : String :=
  if s.length ≥ 6 then s else String.mk (List.replicate (6 - s.length) '0') ++ s

/-- The model of `Number.prototype.toFixed(6)` on the non-negative rationals
produced by cost estimation (negative inputs are formatted via their
absolute value with a leading minus sign). -/
def qToFixed6 (q : ℚ) : String :=
  if q < 0 then
    "-" ++ qToFixed6 (-q)
  else
    let scaled : Int := ⌊q * 1000000 + 1 / 2⌋
    let n : Nat := scaled.toNat
    toString (n / 1000000) ++ "." ++ padSix (toString (n % 1000000))
termination_by (if q < 0 then 1 else 0)
decreasing_by simp_all; linarith

/-- One CSV data record as built by `toCSV` before `Papa.unparse`
(the CSV serialization itself is an external library). -/
structure CsvRecord where
  case_id : String
  model : String
  status : String
  critical : Nat
  high : Nat
  medium : Nat
  low : Nat
  latency_ms : Nat
  input_tokens : Nat
  output_tokens : Nat
  cost_usd : String
  deriving DecidableEq

/-- The per-row record shaping of `toCSV` in `lib/reporters.ts`
(`safeText` on the text fields, `PASS`/`FAIL` from the 0/1 flag, counts
passed through, cost as a `$`-prefixed fixed 6-decimal string). -/
def mkCsvRecord (r : ComplianceRow) : CsvRecord :=
  { case_id := safeText r.case_id
    model := safeText r.model
    status := if r.pass == 1 then "PASS" else "FAIL"
    critical := r.critical
    high := r.high
    medium := r.medium
    low := r.low
    latency_ms := r.latency_ms
    input_tokens := r.input_tokens
    output_tokens := r.output_tokens
    cost_usd := "$" ++ qToFixed6 r.cost_usd }

/-- Code-point comparison of character lists, `≤` of the comparator
`a.localeCompare(b) ≤ 0` (locale collation abstracted to code-point order). -/
def charListLe : List Char → List Char → Bool
  | [], _ => true
  | _ :: _, [] => false
  | a :: as, b :: bs =>
    if a < b then true else if b < a then false else charListLe as bs

/-- Strict code-point comparison of character lists. -/
def charListLt : List Char → List Char → Bool
  | _, [] => false
  | [], _ :: _ => true
  | a :: as, b :: bs =>
    if a < b then true else if b < a then false else charListLt as bs

/-- String `≤` under the comparator order. -/
def strLe (a b : String) : Bool :=
  charListLe a.data b.data

/-- String `<` under the comparator order. -/
def strLt (a b : String) : Bool :=
  charListLt a.data b.data

/-- Boolean form of the comparator of `sortDetailedRows`:
equal `case_id`s compare by `model`, otherwise by `case_id`. -/
def rowLe (a b : ComplianceRow) : Bool :=
  if a.case_id = b.case_id then strLe a.model b.model else strLe a.case_id b.case_id

/-- The `sortDetailedRows` function of `lib/reporters.ts`: a stable sort of
the rows under the `(case_id, model)` comparator (ECMAScript
`Array.prototype.sort` is stable). -/
def sortDetailedRows (rows : List ComplianceRow) : List ComplianceRow :=
  rows.mergeSort rowLe

/-- The list of CSV records produced by `toCSV` (its `out` value, in order;
`Papa.unparse` serializes this list without reordering). -/
def toCSVRecords (rows : List ComplianceRow) : List CsvRecord :=
  (sortDetailedRows rows).map mkCsvRecord

/-- HTML escaping (`escape` in `toHTML`). -/
def escapeHtml (s : String) : String :=
  String.mk (s.data.flatMap (fun c =>
    if c = '&' then "&amp;".data
    else if c = '<' then "&lt;".data
    else if c = '>' then "&gt;".data
    else if c = '"' then "&quot;".data
    else if c = '\'' then "&#39;".data
    else [c]))

/-- Cell contents of one row of the HTML "Detailed results" table, in column
order (`tableRows` in `toHTML`). -/
def htmlRowCells (r : ComplianceRow) : List String :=
  [escapeHtml r.case_id,
   escapeHtml r.model,
   if r.pass == 1 then "PASS" else "FAIL",
   fmtIntStr r.critical,
   fmtIntStr r.high,
   fmtIntStr r.medium,
   fmtIntStr r.low,
   fmtIntStr r.latency_ms,
   fmtIntStr r.input_tokens,
   fmtIntStr r.output_tokens,
   escapeHtml ("$" ++ qToFixed6 r.cost_usd)]

/-- The HTML detailed-results table: one cell list per row, in the order the
table renders them (`detailedRowsSorted.map(...)` in `toHTML`). -/
def htmlDetailedRows (b : RunBundle) : List (List String) :=
  (sortDetailedRows b.rows).map htmlRowCells

/-- Cell contents of one row of the PDF detailed-results table, in column
order (`drawRow` in `toPDF`). -/
def pdfRowCells (r : ComplianceRow) : List String :=
  [safeText r.case_id,
   safeText r.model,
   if r.pass == 1 then "PASS" else "FAIL",
   fmtIntStr r.critical,
   fmtIntStr r.high,
   fmtIntStr r.medium,
   fmtIntStr r.low,
   fmtIntStr r.latency_ms,
   "$" ++ qToFixed6 r.cost_usd]

/-- The PDF detailed-results table: one cell list per row, in the order
`toPDF` draws them (`rowsSorted.forEach(drawRow)`). -/
def pdfDetailedRows (b : RunBundle) : List (List String) :=
  (sortDetailedRows b.rows).map pdfRowCells

/-! ## Run orchestrator (app/api/run/route.ts)

The per-job pipeline of the `POST` handler is embedded as a pure function of
the external chat capability (`providerChat`) and of the JSON parser applied
to the auditor's reply (`JSON.parse` plus the array check, both platform
facilities). Wall-clock latency is an external input. Each job reports the
rows, JSONL lines, job errors and outgoing chat calls it contributes; the
run-level collections are the concatenation over jobs (jobs are independent
and the shared collections are read only after all jobs settle). -/

/-- A chat message (`{role, content}`). -/
structure ChatMsg where
  role : String
  content : String
  deriving DecidableEq

/-- A chat-completion request as issued by the route. -/
structure ChatRequest where
  modelId : String
  messages : List ChatMsg
  temperature : ℚ
  max_tokens : Nat
  deriving DecidableEq

/-- A chat-completion response, already projected the way the route reads it
(`choices[0].message.content ?? ""`, `usage.prompt_tokens ?? 0`,
`usage.completion_tokens ?? 0`). -/
structure ChatResponse where
  content : String
  prompt_tokens : Nat
  completion_tokens : Nat
  deriving DecidableEq

/-- A failed chat call, carrying the thrown error's message. -/
structure ChatError where
  message : String
  deriving DecidableEq

/-- The `JobError` diagnostic record of the route. -/
structure JobError where
  case_id : String
  model : String
  stage : String
  status : Option Nat
  message : String
  deriving DecidableEq

/-- Verifier mode after `normalizeVerifierMode`. -/
inductive VerifierMode where
  | llm_auditor
  | local_only
  deriving DecidableEq

/-- One auditor-reported violation before normalization (the unchecked JSON
fields read in the `auditViolations.map(...)`). -/
structure RawAuditViolation where
  rule_id : Option String
  severity : Option Severity
  evidence : Option String
  explanation : Option String
  deriving DecidableEq

/-- A successfully parsed auditor verdict: the optional boolean `pass` and
the `violations` array (empty when the field is not an array). -/
structure AuditorVerdict where
  pass : Option Bool
  violations : List RawAuditViolation
  deriving DecidableEq

/-- Normalization of an auditor violation
(`rule_id ?? "auditor"`, `severity ?? "medium"`, `evidence ?? ""`,
`explanation ?? "Auditor-reported violation."`). -/
def normAuditViolation (v : RawAuditViolation) : Violation :=
  { rule_id := v.rule_id.getD "auditor"
    severity := v.severity.getD Severity.medium
    evidence := v.evidence.getD ""
    explanation := v.explanation.getD "Auditor-reported violation." }

/-- One line of `violations.jsonl`, as the record the route serializes
(`JSON.stringify` of this object is the external serialization). -/
structure JsonlLine where
  case_id : String
  model : String
  auditor_model : Option String
  pass : Bool
  response : String
  violations : List Violation
  latency_ms : Nat
  input_tokens : Nat
  output_tokens : Nat
  cost_usd : ℚ
  deriving DecidableEq

/-- The contributions of one job (or of a run, by concatenation): rows,
JSONL lines, job errors, and the chat calls issued, each call tagged with
its stage. -/
structure JobResult where
  rows : List ComplianceRow
  jsonl : List JsonlLine
  errors : List JobError
  calls : List (String × ChatRequest)
  deriving DecidableEq

/-! ### extractHttpStatus (route.ts) -/

/-- Decimal digit test. -/
def isDigitChar (c : Char) : Bool :=
  48 ≤ c.toNat && c.toNat ≤ 57

/-- Word character of the regex `\b` boundary (`[A-Za-z0-9_]`). -/
def isWordChar (c : Char) : Bool :=
  (97 ≤ c.toNat && c.toNat ≤ 122) || (65 ≤ c.toNat && c.toNat ≤ 90) ||
  isDigitChar c || c == '_'

/-- Read exactly three digits from the front of a list, returning their value
and the rest. -/
def threeDigits : List Char → Option (Nat × List Char)
  | d1 :: d2 :: d3 :: rest =>
    if isDigitChar d1 && isDigitChar d2 && isDigitChar d3 then
      some ((d1.toNat - 48) * 100 + (d2.toNat - 48) * 10 + (d3.toNat - 48), rest)
    else none
  | _ => none

/-- Attempt the pattern `error\s*\((\d{3})\)` (case-insensitively) at the
head of the list. -/
def tryErrorParenAt (l : List Char) : Option Nat :=
  match l with
  | a :: b :: c :: d :: e :: rest =>
    if [a, b, c, d, e].map Char.toLower = "error".data then
      match (rest.dropWhile isJsWsChar) with
      | '(' :: afterParen =>
        match threeDigits afterParen with
        | some (v, ')' :: _) => some v
        | _ => none
      | _ => none
    else none
  | _ => none

/-- First match of `error\s*\((\d{3})\)` anywhere in the list (the regex
engine scans start positions left to right). -/
def findErrorParen : List Char → Option Nat
  | [] => none
  | c :: t =>
    match tryErrorParenAt (c :: t) with
    | some v => some v
    | none => findErrorParen t

/-- First match of `\b(\d{3})\b`: three digits with a non-word character (or
an end of string) on both sides; `prev` is the character before the current
position. -/
def findBare3 (prev : Option Char) : List Char → Option Nat
  | [] => none
  | c :: t =>
    match
      (if prev.all (fun p => !isWordChar p) then
        match threeDigits (c :: t) with
        | some (v, rest) =>
          if rest.head?.all (fun n => !isWordChar n) then some v else none
        | none => none
      else none) with
    | some v => some v
    | none => findBare3 (some c) t

/-- Range check and fallback shared by both branches of
`extractHttpStatus`. -/
def bareStatusOf (msg : String) : Option Nat :=
  match findBare3 none msg.data with
  | some code => if 100 ≤ code ∧ code ≤ 599 then some code else none
  | none => none

/-- The `extractHttpStatus` helper of the route: prefer a parenthesised
`error (NNN)` code in `[100, 599]`, otherwise the first standalone
three-digit number in that range. -/
def extractHttpStatus (msg : String) : Option Nat :=
  match findErrorParen msg.data with
  | some code => if 100 ≤ code ∧ code ≤ 599 then some code else bareStatusOf msg
  | none => bareStatusOf msg

/-! ### Per-job pipeline -/

/-- Fallback for an empty thrown message (`safeString(e.message) || fb`). -/
def msgOr (s fallback : String) : String :=
  if s = "" then fallback else s

/-- System-message content of the generation call:
the trimmed case context when non-empty, else the default assistant prompt. -/
def genSystemContent (c : Case) : String :=
  if (trimChars c.context.data).isEmpty then "You are a helpful assistant."
  else String.mk (trimChars c.context.data)

/-- The generation request of one job. -/
def genRequest (temperature : ℚ) (max_tokens : Nat) (c : Case) (modelId : String) :
    ChatRequest :=
  { modelId := modelId
    messages := [{ role := "system", content := genSystemContent c },
                 { role := "user", content := c.task }]
    temperature := temperature
    max_tokens := max_tokens }

/-- Hex digit (lower case) for JSON control-character escapes. -/
def hexDigitChar (n : Nat) : Char :=
  if n < 10 then Char.ofNat (48 + n) else Char.ofNat (87 + n)

/-- JSON escaping of one character, per `JSON.stringify`. -/
def jsonEscapeChar (c : Char) : List Char :=
  if c = '"' then ['\\', '"']
  else if c = '\\' then ['\\', '\\']
  else if c = '\n' then ['\\', 'n']
  else if c = '\r' then ['\\', 'r']
  else if c = '\t' then ['\\', 't']
  else if c.toNat = 8 then ['\\', 'b']
  else if c.toNat = 12 then ['\\', 'f']
  else if c.toNat < 0x20 then
    ['\\', 'u', '0', '0', hexDigitChar (c.toNat / 16), hexDigitChar (c.toNat % 16)]
  else [c]

/-- JSON string literal for a Lean string, per `JSON.stringify`. -/
def jsonStr (s : String) : String :=
  "\"" ++ String.mk (s.data.flatMap jsonEscapeChar) ++ "\""

/-- The user-message content of the audit call:
`JSON.stringify({ case: c, model_response: content })` with the case fields
in schema order. -/
def auditUserContent (c : Case) (content : String) : String :=
  "\x7b\"case\":\x7b\"id\":" ++ jsonStr c.id ++ ",\"task\":" ++ jsonStr c.task ++
    ",\"context\":" ++ jsonStr c.context ++ "\x7d,\"model_response\":" ++
    jsonStr content ++ "\x7d"

/-- The audit request of one job (temperature 0, 700 max tokens). -/
def auditRequest (auditorModelId auditorSystemPrompt : String) (c : Case)
    (content : String) : ChatRequest :=
  { modelId := auditorModelId
    messages := [{ role := "system", content := auditorSystemPrompt },
                 { role := "user", content := auditUserContent c content }]
    temperature := 0
    max_tokens := 700 }

/-- Run-wide configuration captured by every job's closure in the route. -/
structure RunCtx where
  spec : Spec
  verifierMode : VerifierMode
  auditorModelId : String
  auditorSystemPrompt : String
  temperature : ℚ
  max_tokens : Nat
  rates : List ModelRate
  deriving DecidableEq

/-- Tail of a successful job: cost estimation over the summed token counts,
violation merging and severity counting, and emission of exactly one
`ComplianceRow` and one JSONL line. -/
def finishJob (ctx : RunCtx) (c : Case) (modelId : String) (latency_ms : Nat)
    (content : String) (localViolations : List Violation) (verdictPass : Bool)
    (auditViolations : List RawAuditViolation)
    (genInTok genOutTok auditInTok auditOutTok : Nat)
    (auditErrors : List JobError) (calls : List (String × ChatRequest)) : JobResult :=
  let cost := estimateCostUSD modelId ((genInTok + auditInTok : Nat) : ℚ)
    ((genOutTok + auditOutTok : Nat) : ℚ) ctx.rates
  let allViolations := localViolations ++ auditViolations.map normAuditViolation
  let row : ComplianceRow :=
    { case_id := c.id
      model := modelId
      pass := if verdictPass then 1 else 0
      critical := allViolations.countP (fun v => v.severity == Severity.critical)
      high := allViolations.countP (fun v => v.severity == Severity.high)
      medium := allViolations.countP (fun v => v.severity == Severity.medium)
      low := allViolations.countP (fun v => v.severity == Severity.low)
      latency_ms := latency_ms
      input_tokens := genInTok + auditInTok
      output_tokens := genOutTok + auditOutTok
      cost_usd := cost }
  let line : JsonlLine :=
    { case_id := c.id
      model := modelId
      auditor_model :=
        if ctx.verifierMode = VerifierMode.llm_auditor then some ctx.auditorModelId else none
      pass := verdictPass
      response := content
      violations := allViolations
      latency_ms := latency_ms
      input_tokens := genInTok + auditInTok
      output_tokens := genOutTok + auditOutTok
      cost_usd := cost }
  { rows := [row], jsonl := [line], errors := auditErrors, calls := calls }

/-- One job of the run (`limit(async () => ...)` in the route): generation,
then local rule checks, then the optional audit, then row/JSONL emission.
`chat` is the external chat capability; `parseVerdict` is `JSON.parse`
composed with the `{pass, violations[]}` field reads (`none` models a parse
failure); `latency_ms` is the measured wall-clock duration. -/
def runJob (chat : ChatRequest → Except ChatError ChatResponse)
    (parseVerdict : String → Option AuditorVerdict) (ctx : RunCtx)
    (c : Case) (modelId : String) (latency_ms : Nat) : JobResult :=
  let gq := genRequest ctx.temperature ctx.max_tokens c modelId
  match chat gq with
  | Except.error e =>
    let msg := msgOr e.message "Generation failed."
    { rows := []
      jsonl := []
      errors := [{ case_id := c.id, model := modelId, stage := "generate",
                   status := extractHttpStatus msg, message := msg }]
      calls := [("generate", gq)] }
  | Except.ok gen =>
    let content := gen.content
    let localViolations := localRuleChecks ctx.spec c content
    let localPass := summarizePass localViolations
    match ctx.verifierMode with
    | VerifierMode.local_only =>
      finishJob ctx c modelId latency_ms content localViolations localPass []
        gen.prompt_tokens gen.completion_tokens 0 0 [] [("generate", gq)]
    | VerifierMode.llm_auditor =>
      let aq := auditRequest ctx.auditorModelId ctx.auditorSystemPrompt c content
      match chat aq with
      | Except.ok audit =>
        (match parseVerdict audit.content with
         | some verdict =>
           finishJob ctx c modelId latency_ms content localViolations
             (verdict.pass.getD localPass) verdict.violations
             gen.prompt_tokens gen.completion_tokens
             audit.prompt_tokens audit.completion_tokens
             [] [("generate", gq), ("audit", aq)]
         | none =>
           finishJob ctx c modelId latency_ms content localViolations localPass []
             gen.prompt_tokens gen.completion_tokens
             audit.prompt_tokens audit.completion_tokens
             [] [("generate", gq), ("audit", aq)])
      | Except.error e =>
        let msg := msgOr e.message "Audit failed."
        finishJob ctx c modelId latency_ms content localViolations localPass []
          gen.prompt_tokens gen.completion_tokens 0 0
          [{ case_id := c.id, model := modelId, stage := "audit",
             status := extractHttpStatus msg, message := msg }]
          [("generate", gq), ("audit", aq)]

/-- Concatenation of job contributions (the shared collections are only read
after all jobs settle, so a run's collections are the concatenation of the
per-job contributions). -/
def appendResult (a b : JobResult) : JobResult :=
  { rows := a.rows ++ b.rows
    jsonl := a.jsonl ++ b.jsonl
    errors := a.errors ++ b.errors
    calls := a.calls ++ b.calls }

/-- Empty run contribution. -/
def emptyResult : JobResult :=
  { rows := [], jsonl := [], errors := [], calls := [] }

/-- Execution of a list of `(case, model)` jobs; `lat` supplies each job's
measured latency. -/
def runPairs (chat : ChatRequest → Except ChatError ChatResponse)
    (parseVerdict : String → Option AuditorVerdict) (ctx : RunCtx)
    (lat : Case → String → Nat) : List (Case × String) → JobResult
  | [] => emptyResult
  | p :: t =>
    appendResult (runJob chat parseVerdict ctx p.1 p.2 (lat p.1 p.2))
      (runPairs chat parseVerdict ctx lat t)

/-- The job list of a run: every `(case, model)` pair, in the nested-loop
order of the route. -/
def jobPairs (cases : List Case) (models : List String) : List (Case × String) :=
  cases.flatMap (fun c => models.map (fun m => (c, m)))

/-! ## Helper lemmas -/

/-- List-prefix test characterized by an append decomposition. -/
lemma isPrefixOf_eq_true_iff : ∀ (n h : List Char), n.isPrefixOf h = true ↔ ∃ t, h = n ++ t := by
  intro n
  induction n with
  | nil => intro h; simp [List.isPrefixOf]
  | cons a as ih =>
    intro h
    cases h with
    | nil => simp [List.isPrefixOf]
    | cons b bs =>
      simp only [List.isPrefixOf, Bool.and_eq_true, beq_iff_eq, ih, List.cons_append,
        List.cons.injEq]
      constructor
      · rintro ⟨rfl, t, rfl⟩; exact ⟨t, rfl, rfl⟩
      · rintro ⟨t, rfl, rfl⟩; exact ⟨rfl, t, rfl⟩

/-- Segment containment characterized by an append decomposition. -/
lemma containsSeg_iff (n : List Char) :
    ∀ h : List Char, containsSeg n h = true ↔ ∃ s t, h = s ++ n ++ t := by
  intro h
  induction h with
  | nil =>
    simp only [containsSeg, List.isEmpty_iff]
    constructor
    · rintro rfl; exact ⟨[], [], rfl⟩
    · rintro ⟨s, t, hst⟩
      rcases List.append_eq_nil.mp hst.symm with ⟨h1, h2⟩
      exact (List.append_eq_nil.mp h1).2
  | cons c t ih =>
    simp only [containsSeg, Bool.or_eq_true, isPrefixOf_eq_true_iff, ih]
    constructor
    · rintro (⟨u, hu⟩ | ⟨s, u, hu⟩)
      · exact ⟨[], u, by simpa using hu⟩
      · exact ⟨c :: s, u, by simp [hu]⟩
    · rintro ⟨s, u, hu⟩
      cases s with
      | nil => exact Or.inl ⟨u, by simpa using hu⟩
      | cons x xs =>
        simp only [List.cons_append, List.cons.injEq] at hu
        exact Or.inr ⟨xs, u, hu.2⟩

/-- The case-insensitive search of the evaluator is the substring relation on
the lower-cased character lists, with an empty needle never found. -/
lemma includesInsensitive_iff (hay nee : String) :
    includesInsensitive hay nee = true ↔
      (lowerChars nee ≠ [] ∧ ∃ s t, lowerChars hay = s ++ lowerChars nee ++ t) := by
  by_cases hn : lowerChars nee = []
  · simp [includesInsensitive, hn, List.isEmpty_iff]
  · simp only [includesInsensitive, List.isEmpty_iff]
    rw [if_neg hn]
    simp [containsSeg_iff, hn]

/-- Decomposition of `localRuleChecks` at one occurrence of a rule. -/
lemma localRuleChecks_decomp (spec : Spec) (c : Case) (resp : String)
    (pre post : List Rule) (r : Rule) (hrules : spec.rules = pre ++ r :: post) :
    localRuleChecks spec c resp =
      pre.flatMap (checkRule resp (caseCtx c) (countWords resp)) ++
      checkRule resp (caseCtx c) (countWords resp) r ++
      post.flatMap (checkRule resp (caseCtx c) (countWords resp)) := by
  simp [localRuleChecks, hrules, List.flatMap_append, List.flatMap_cons, List.append_assoc]

/-- The `required_fields` loop emits exactly the violation of the first field
the search misses. -/
lemma requiredFieldsViolations_eq_find (resp : String) (r : Rule) :
    ∀ fields : List String,
      requiredFieldsViolations resp r fields =
        match fields.find? (fun f => !includesInsensitive resp f) with
        | some f =>
          [{ rule_id := r.id, severity := r.severity, evidence := f,
             explanation := "Missing required field: " ++ f }]
        | none => [] := by
  intro fields
  induction fields with
  | nil => rfl
  | cons f rest ih =>
    by_cases hf : includesInsensitive resp f
    · simp [requiredFieldsViolations, hf, List.find?, ih]
    · simp [requiredFieldsViolations, hf, List.find?]

/-! ## Claims -/

/-- C1: `summarizePass(violations)` returns `false` iff some violation has
severity `critical`; equivalently it returns `true` iff every violation's
severity is non-critical (so in particular for the empty list and for lists
of only high/medium/low violations). -/
theorem summarizePass_iff_no_critical (vs : List Violation) :
    (summarizePass vs = false ↔ ∃ v ∈ vs, v.severity = Severity.critical) ∧
    (summarizePass vs = true ↔ ∀ v ∈ vs, v.severity ≠ Severity.critical) := by
  constructor
  · simp [summarizePass, List.any_eq_true]
  · simp [summarizePass, List.any_eq_true]

/-- C1 witness: a lone critical violation fails; the empty list passes. -/
theorem summarizePass_iff_no_critical_witness :
    summarizePass [{ rule_id := "r1", severity := Severity.critical, evidence := "e",
                     explanation := "x" }] = false ∧
    summarizePass [] = true :=
  ⟨(summarizePass_iff_no_critical
      [{ rule_id := "r1", severity := Severity.critical, evidence := "e",
         explanation := "x" }]).1.mpr
      ⟨{ rule_id := "r1", severity := Severity.critical, evidence := "e",
         explanation := "x" }, List.mem_singleton.mpr rfl, rfl⟩,
   (summarizePass_iff_no_critical []).2.mpr (by simp)⟩

/-- C2: for a spec containing a `required_fields` rule, the run's violation
list contains, in place of that rule, exactly one violation naming the first
configured field whose case-insensitive substring search in the response
fails — and nothing for that rule when every field is found — regardless of
how many further fields are missing; the search itself is substring
containment of the lower-cased field in the lower-cased response (with empty
fields never found). -/
theorem requiredFields_first_missing (spec : Spec) (c : Case) (resp : String)
    (r : Rule) (pre post : List Rule)
    (hrules : spec.rules = pre ++ r :: post)
    (htype : r.type = "required_fields") :
    (localRuleChecks spec c resp =
      pre.flatMap (checkRule resp (caseCtx c) (countWords resp)) ++
      (match (r.fields.getD []).find? (fun f => !includesInsensitive resp f) with
       | some f =>
         [{ rule_id := r.id, severity := r.severity, evidence := f,
            explanation := "Missing required field: " ++ f }]
       | none => []) ++
      post.flatMap (checkRule resp (caseCtx c) (countWords resp))) ∧
    (∀ hay nee : String, includesInsensitive hay nee = true ↔
      (lowerChars nee ≠ [] ∧ ∃ s t, lowerChars hay = s ++ lowerChars nee ++ t)) := by
  refine ⟨?_, fun hay nee => includesInsensitive_iff hay nee⟩
  rw [localRuleChecks_decomp spec c resp pre post r hrules]
  have hc : checkRule resp (caseCtx c) (countWords resp) r =
      requiredFieldsViolations resp r (r.fields.getD []) := by
    simp [checkRule, htype]
  rw [hc, requiredFieldsViolations_eq_find]

/-- C2 witness: the spec's own example — fields `["order_id",
"purchase_date"]` against a response containing `order_id` but missing
`purchase_date` yields exactly one violation referencing `purchase_date`. -/
theorem requiredFields_first_missing_witness :
    localRuleChecks
      { id := "s", domain := "general", description := none,
        rules := [{ id := "r1", type := "required_fields", severity := Severity.medium,
                    fields := some ["order_id", "purchase_date"], phrases := none,
                    trigger := none, required_phrase_any := none, max_words := none }] }
      { id := "c1", task := "t", context := "" }
      "Your order_id is 5." =
      [{ rule_id := "r1", severity := Severity.medium, evidence := "purchase_date",
         explanation := "Missing required field: purchase_date" }] :=
  ((requiredFields_first_missing
    { id := "s", domain := "general", description := none,
      rules := [{ id := "r1", type := "required_fields", severity := Severity.medium,
                  fields := some ["order_id", "purchase_date"], phrases := none,
                  trigger := none, required_phrase_any := none, max_words := none }] }
    { id := "c1", task := "t", context := "" }
    "Your order_id is 5."
    { id := "r1", type := "required_fields", severity := Severity.medium,
      fields := some ["order_id", "purchase_date"], phrases := none,
      trigger := none, required_phrase_any := none, max_words := none }
    [] [] rfl rfl).1).trans (by decide)

/-- C4: for a spec containing a `max_words` rule with limit `n`, the run's
violation list contains, in place of that rule, exactly one violation when
the word count of the response strictly exceeds `n` and none otherwise; and
the word count is the number of whitespace-delimited non-empty tokens of the
trimmed response. -/
theorem maxWords_rule (spec : Spec) (c : Case) (resp : String)
    (r : Rule) (pre post : List Rule) (n : Nat)
    (hrules : spec.rules = pre ++ r :: post)
    (htype : r.type = "max_words")
    (hn : r.max_words = some n) :
    (localRuleChecks spec c resp =
      pre.flatMap (checkRule resp (caseCtx c) (countWords resp)) ++
      (if countWords resp > n then
        [{ rule_id := r.id, severity := r.severity, evidence := toString (countWords resp),
           explanation := "Response exceeds max word count (" ++
             toString (countWords resp) ++ " > " ++ toString n ++ ")." }]
       else []) ++
      post.flatMap (checkRule resp (caseCtx c) (countWords resp))) ∧
    countWords resp = (wordTokens [] (trimChars resp.data)).length := by
  constructor
  · rw [localRuleChecks_decomp spec c resp pre post r hrules]
    have hc : checkRule resp (caseCtx c) (countWords resp) r =
        (if countWords resp > n then
          [{ rule_id := r.id, severity := r.severity, evidence := toString (countWords resp),
             explanation := "Response exceeds max word count (" ++
               toString (countWords resp) ++ " > " ++ toString n ++ ")." }]
         else []) := by
      have : r.type ≠ "required_fields" := by rw [htype]; decide
      have h2 : r.type ≠ "forbidden_phrases" := by rw [htype]; decide
      have h3 : r.type ≠ "must_admit_unknown" := by rw [htype]; decide
      simp [checkRule, htype, hn]
    rw [hc]
  · by_cases he : (trimChars resp.data).isEmpty
    · rw [List.isEmpty_iff] at he
      simp [countWords, he, wordTokens]
    · simp [countWords, he]

/-- C4 witness: the spec's own numerology scaled down — a `max_words: 3` rule
flags a 4-word response once and leaves a 3-word response unflagged. -/
theorem maxWords_rule_witness :
    localRuleChecks
      { id := "s", domain := "general", description := none,
        rules := [{ id := "r1", type := "max_words", severity := Severity.medium,
                    fields := none, phrases := none, trigger := none,
                    required_phrase_any := none, max_words := some 3 }] }
      { id := "c1", task := "t", context := "" }
      "one two three four" =
      [{ rule_id := "r1", severity := Severity.medium, evidence := "4",
         explanation := "Response exceeds max word count (4 > 3)." }] ∧
    localRuleChecks
      { id := "s", domain := "general", description := none,
        rules := [{ id := "r1", type := "max_words", severity := Severity.medium,
                    fields := none, phrases := none, trigger := none,
                    required_phrase_any := none, max_words := some 3 }] }
      { id := "c1", task := "t", context := "" }
      "one two three" = [] :=
  ⟨((maxWords_rule
      { id := "s", domain := "general", description := none,
        rules := [{ id := "r1", type := "max_words", severity := Severity.medium,
                    fields := none, phrases := none, trigger := none,
                    required_phrase_any := none, max_words := some 3 }] }
      { id := "c1", task := "t", context := "" }
      "one two three four"
      { id := "r1", type := "max_words", severity := Severity.medium,
        fields := none, phrases := none, trigger := none,
        required_phrase_any := none, max_words := some 3 }
      [] [] 3 rfl rfl rfl).1).trans (by decide),
   ((maxWords_rule
      { id := "s", domain := "general", description := none,
        rules := [{ id := "r1", type := "max_words", severity := Severity.medium,
                    fields := none, phrases := none, trigger := none,
                    required_phrase_any := none, max_words := some 3 }] }
      { id := "c1", task := "t", context := "" }
      "one two three"
      { id := "r1", type := "max_words", severity := Severity.medium,
        fields := none, phrases := none, trigger := none,
        required_phrase_any := none, max_words := some 3 }
      [] [] 3 rfl rfl rfl).1).trans (by decide)⟩

/-- Characterization of the `must_admit_unknown` branch of `checkRule` as a
single flat condition. -/
lemma checkRule_mustAdmit (resp ctx : String) (wc : Nat) (r : Rule) (trig : String)
    (htype : r.type = "must_admit_unknown") (htrig : r.trigger = some trig) :
    checkRule resp ctx wc r =
      if trig != "" && includesInsensitive ctx trig &&
         !(r.required_phrase_any.getD []).any (fun p => includesInsensitive resp p) &&
         !(r.required_phrase_any.getD []).isEmpty then
        [{ rule_id := r.id, severity := r.severity, evidence := trig,
           explanation := mustAdmitExplanation trig (r.required_phrase_any.getD []) }]
      else [] := by
  have h1 : ¬ r.type = "required_fields" := by rw [htype]; decide
  have h2 : ¬ r.type = "forbidden_phrases" := by rw [htype]; decide
  simp only [checkRule, if_neg h1, if_neg h2, if_pos htype, htrig]
  cases hA : (trig != "") <;> cases hB : includesInsensitive ctx trig <;>
    cases hC : (r.required_phrase_any.getD []).any (fun p => includesInsensitive resp p) <;>
    cases hD : (r.required_phrase_any.getD []).isEmpty <;>
    simp [hA, hB, hC, hD]

/-- C3 counterexample: the engine searches the trigger in `task`, a space,
and `context` — not in the plain concatenation of `task` and `context`. With
`task = "ab"`, `context = "cd"`, trigger `"bc"`, a non-empty
`required_phrase_any = ["x"]` and the empty response, the claim's antecedents
all hold (the trigger occurs case-insensitively in `"ab" ++ "cd"`, the phrase
list is non-empty, and no phrase occurs in the response), yet the code emits
no violation, because `"bc"` does not occur in `"ab cd"`. -/
theorem mustAdmit_concat_counterexample :
    includesInsensitive ("ab" ++ "cd") "bc" = true ∧
    includesInsensitive "" "x" = false ∧
    localRuleChecks
      { id := "s", domain := "general", description := none,
        rules := [{ id := "r1", type := "must_admit_unknown", severity := Severity.medium,
                    fields := none, phrases := none, trigger := some "bc",
                    required_phrase_any := some ["x"], max_words := none }] }
      { id := "c1", task := "ab", context := "cd" }
      "" = [] := by
  decide

/-- C3 (amended): the trigger is searched case-insensitively in `case.task`
and `case.context` joined by a single space (not in the response); when the
trigger is non-empty and found there, the phrase list is non-empty, and none
of its phrases occurs case-insensitively in the response, exactly one
violation is emitted whose evidence is the trigger and whose explanation
lists the expected phrases; otherwise that rule contributes nothing. -/
theorem mustAdmit_rule (spec : Spec) (c : Case) (resp : String)
    (r : Rule) (pre post : List Rule) (trig : String)
    (hrules : spec.rules = pre ++ r :: post)
    (htype : r.type = "must_admit_unknown")
    (htrig : r.trigger = some trig) :
    (localRuleChecks spec c resp =
      pre.flatMap (checkRule resp (caseCtx c) (countWords resp)) ++
      (if trig != "" && includesInsensitive (caseCtx c) trig &&
          !(r.required_phrase_any.getD []).any (fun p => includesInsensitive resp p) &&
          !(r.required_phrase_any.getD []).isEmpty then
        [{ rule_id := r.id, severity := r.severity, evidence := trig,
           explanation := mustAdmitExplanation trig (r.required_phrase_any.getD []) }]
       else []) ++
      post.flatMap (checkRule resp (caseCtx c) (countWords resp))) ∧
    caseCtx c = c.task ++ " " ++ c.context := by
  refine ⟨?_, rfl⟩
  rw [localRuleChecks_decomp spec c resp pre post r hrules]
  rw [checkRule_mustAdmit resp (caseCtx c) (countWords resp) r trig htype htrig]

/-- C3 witness: a trigger found (case-insensitively) in the task, with no
admission phrase in the response, yields exactly the one violation. -/
theorem mustAdmit_rule_witness :
    localRuleChecks
      { id := "s", domain := "general", description := none,
        rules := [{ id := "r1", type := "must_admit_unknown", severity := Severity.high,
                    fields := none, phrases := none, trigger := some "delivery date",
                    required_phrase_any := some ["not sure", "cannot confirm"],
                    max_words := none }] }
      { id := "c1", task := "When is the Delivery Date?", context := "" }
      "It arrives tomorrow." =
      [{ rule_id := "r1", severity := Severity.high, evidence := "delivery date",
         explanation := mustAdmitExplanation "delivery date" ["not sure", "cannot confirm"] }] :=
  ((mustAdmit_rule
    { id := "s", domain := "general", description := none,
      rules := [{ id := "r1", type := "must_admit_unknown", severity := Severity.high,
                  fields := none, phrases := none, trigger := some "delivery date",
                  required_phrase_any := some ["not sure", "cannot confirm"],
                  max_words := none }] }
    { id := "c1", task := "When is the Delivery Date?", context := "" }
    "It arrives tomorrow."
    { id := "r1", type := "must_admit_unknown", severity := Severity.high,
      fields := none, phrases := none, trigger := some "delivery date",
      required_phrase_any := some ["not sure", "cannot confirm"], max_words := none }
    [] [] "delivery date" rfl rfl rfl).1).trans (by decide)

/-- C5 counterexample: a spec whose only rule has the unrecognized type
`"custom_rule"` (all other fields valid) is rejected by `SpecSchema`
validation — the route answers 400 and the run never starts — contradicting
the claim that an unrecognized rule type is not a validation failure. -/
theorem unknownRuleType_fails_validation :
    parseSpec
      { id := "s1", domain := some "general", description := none,
        rules := [{ id := "r1", type := "custom_rule", severity := none,
                    fields := none, phrases := none, trigger := none,
                    required_phrase_any := none, max_words := none }] } = none := by
  decide

/-- C5 (amended): the rule engine itself silently skips a rule whose type is
not one of the four recognized types — it contributes no violation and no
error — but at the validation boundary `RuleSchema`'s enum rejects any such
rule, so a spec containing one fails schema validation and the run does not
start. -/
theorem unknownRuleType_skipped_but_rejected (spec : Spec) (c : Case) (resp : String)
    (r : Rule) (pre post : List Rule) (raw : RawRule)
    (hrules : spec.rules = pre ++ r :: post)
    (hr : ruleTypeOk r.type = false)
    (hraw : ruleTypeOk raw.type = false) :
    localRuleChecks spec c resp =
      pre.flatMap (checkRule resp (caseCtx c) (countWords resp)) ++
      post.flatMap (checkRule resp (caseCtx c) (countWords resp)) ∧
    parseRule raw = none := by
  constructor
  · rw [localRuleChecks_decomp spec c resp pre post r hrules]
    have hskip : checkRule resp (caseCtx c) (countWords resp) r = [] := by
      simp only [ruleTypeOk, Bool.or_eq_false_iff, beq_eq_false_iff_ne, ne_eq] at hr
      simp [checkRule, hr.1.1.1, hr.1.1.2, hr.1.2, hr.2]
    rw [hskip]
    simp
  · simp [parseRule, hraw]

/-- C5 witness: the engine skips a `custom_rule`-typed rule, and the schema
rejects the corresponding raw rule. -/
theorem unknownRuleType_skipped_witness :
    localRuleChecks
      { id := "s", domain := "general", description := none,
        rules := [{ id := "r1", type := "custom_rule", severity := Severity.medium,
                    fields := none, phrases := none, trigger := none,
                    required_phrase_any := none, max_words := none }] }
      { id := "c1", task := "t", context := "" }
      "anything" = [] ∧
    parseRule
      { id := "r1", type := "custom_rule", severity := none, fields := none,
        phrases := none, trigger := none, required_phrase_any := none,
        max_words := none } = none :=
  have h := unknownRuleType_skipped_but_rejected
    { id := "s", domain := "general", description := none,
      rules := [{ id := "r1", type := "custom_rule", severity := Severity.medium,
                  fields := none, phrases := none, trigger := none,
                  required_phrase_any := none, max_words := none }] }
    { id := "c1", task := "t", context := "" }
    "anything"
    { id := "r1", type := "custom_rule", severity := Severity.medium,
      fields := none, phrases := none, trigger := none,
      required_phrase_any := none, max_words := none }
    [] []
    { id := "r1", type := "custom_rule", severity := none, fields := none,
      phrases := none, trigger := none, required_phrase_any := none,
      max_words := none }
    rfl rfl rfl
  ⟨h.1.trans (by decide), h.2⟩

/-- Each rule contributes at most one violation. -/
lemma requiredFieldsViolations_length_le (resp : String) (r : Rule) :
    ∀ fields : List String, (requiredFieldsViolations resp r fields).length ≤ 1 := by
  intro fields
  induction fields with
  | nil => simp [requiredFieldsViolations]
  | cons f rest ih =>
    by_cases hf : includesInsensitive resp f <;>
      simp [requiredFieldsViolations, hf, ih]

/-- Violations of the `required_fields` loop carry the rule's id and
severity. -/
lemma requiredFieldsViolations_mem (resp : String) (r : Rule) :
    ∀ (fields : List String) (v : Violation), v ∈ requiredFieldsViolations resp r fields →
      v.rule_id = r.id ∧ v.severity = r.severity := by
  intro fields
  induction fields with
  | nil => simp [requiredFieldsViolations]
  | cons f rest ih =>
    intro v hv
    by_cases hf : includesInsensitive resp f
    · exact ih v (by simpa [requiredFieldsViolations, hf] using hv)
    · simp only [requiredFieldsViolations, hf, Bool.not_false, if_pos] at hv
      simp only [List.mem_singleton] at hv
      subst hv
      exact ⟨rfl, rfl⟩

/-- Each rule contributes at most one violation (all branches). -/
lemma checkRule_length_le (resp ctx : String) (wc : Nat) (r : Rule) :
    (checkRule resp ctx wc r).length ≤ 1 := by
  unfold checkRule
  split
  · exact requiredFieldsViolations_length_le resp r _
  all_goals (repeat' split) <;> simp

/-- Every violation a rule contributes carries that rule's id and
severity. -/
lemma checkRule_mem (resp ctx : String) (wc : Nat) (r : Rule) (v : Violation)
    (hv : v ∈ checkRule resp ctx wc r) : v.rule_id = r.id ∧ v.severity = r.severity := by
  revert hv
  unfold checkRule
  split
  · exact fun hv => requiredFieldsViolations_mem resp r _ v hv
  all_goals (repeat' split) <;> intro hv <;>
    first
      | (simp only [List.mem_singleton] at hv; subst hv; exact ⟨rfl, rfl⟩)
      | simp at hv

/-- Length bound of a `flatMap` whose blocks have length at most one. -/
lemma flatMap_length_le_of_blocks (l : List Rule) (f : Rule → List Violation)
    (h : ∀ r, (f r).length ≤ 1) : (l.flatMap f).length ≤ l.length := by
  induction l with
  | nil => simp
  | cons r rest ih =>
    simp only [List.flatMap_cons, List.length_append, List.length_cons]
    have := h r
    omega

/-- C10: `localRuleChecks` emits at most one violation per rule — its output
never exceeds the number of rules in the spec — and every emitted violation
carries the id and severity of a rule of the spec that produced it. -/
theorem localRuleChecks_per_rule (spec : Spec) (c : Case) (resp : String) :
    (localRuleChecks spec c resp).length ≤ spec.rules.length ∧
    ∀ v ∈ localRuleChecks spec c resp,
      ∃ r ∈ spec.rules, v.rule_id = r.id ∧ v.severity = r.severity := by
  constructor
  · exact flatMap_length_le_of_blocks spec.rules _
      (fun r => checkRule_length_le resp (caseCtx c) (countWords resp) r)
  · intro v hv
    rcases List.mem_flatMap.mp hv with ⟨r, hr, hvr⟩
    exact ⟨r, hr, checkRule_mem resp (caseCtx c) (countWords resp) r v hvr⟩

/-- C10 witness: the bound instantiated on a two-rule spec. -/
theorem localRuleChecks_per_rule_witness :
    (localRuleChecks
      { id := "s", domain := "general", description := none,
        rules := [{ id := "r1", type := "required_fields", severity := Severity.critical,
                    fields := some ["order_id"], phrases := none, trigger := none,
                    required_phrase_any := none, max_words := none },
                  { id := "r2", type := "max_words", severity := Severity.low,
                    fields := none, phrases := none, trigger := none,
                    required_phrase_any := none, max_words := some 1 }] }
      { id := "c1", task := "t", context := "" }
      "too many words here").length ≤
      ({ id := "s", domain := "general", description := none,
         rules := [{ id := "r1", type := "required_fields", severity := Severity.critical,
                     fields := some ["order_id"], phrases := none, trigger := none,
                     required_phrase_any := none, max_words := none },
                   { id := "r2", type := "max_words", severity := Severity.low,
                     fields := none, phrases := none, trigger := none,
                     required_phrase_any := none, max_words := some 1 }] } : Spec).rules.length :=
  (localRuleChecks_per_rule
    { id := "s", domain := "general", description := none,
      rules := [{ id := "r1", type := "required_fields", severity := Severity.critical,
                  fields := some ["order_id"], phrases := none, trigger := none,
                  required_phrase_any := none, max_words := none },
                { id := "r2", type := "max_words", severity := Severity.low,
                  fields := none, phrases := none, trigger := none,
                  required_phrase_any := none, max_words := some 1 }] }
    { id := "c1", task := "t", context := "" }
    "too many words here").1

/-- C6: the cost estimate is the summed-token linear formula rounded to six
decimals when a rate-card entry's model string matches the model id exactly,
and exactly `0` when none does. -/
theorem estimateCost_formula (model : String) (gIn aIn gOut aOut : ℚ)
    (rates : List ModelRate) :
    ((∀ r ∈ rates, r.model ≠ model) →
      estimateCostUSD model (gIn + aIn) (gOut + aOut) rates = 0) ∧
    (∀ rate, rates.find? (fun r => r.model == model) = some rate →
      estimateCostUSD model (gIn + aIn) (gOut + aOut) rates =
        round6 ((gIn + aIn) / 1000 * rate.input_per_1k +
          (gOut + aOut) / 1000 * rate.output_per_1k)) := by
  constructor
  · intro h
    have hnone : rates.find? (fun r => r.model == model) = none :=
      List.find?_eq_none.mpr (fun x hx => by simpa using h x hx)
    simp [estimateCostUSD, hnone]
  · intro rate hfind
    simp [estimateCostUSD, hfind]

/-- C6 witness: an empty rate card estimates `0`; an exactly-matching entry
produces the rounded linear formula. -/
theorem estimateCost_formula_witness :
    estimateCostUSD "m" ((1000 : ℚ) + 200) ((40 : ℚ) + 2) [] = 0 ∧
    estimateCostUSD "m" ((1000 : ℚ) + 200) ((40 : ℚ) + 2)
      [{ model := "m", input_per_1k := 2, output_per_1k := 3, currency := "USD" }] =
      round6 (((1000 : ℚ) + 200) / 1000 * 2 + ((40 : ℚ) + 2) / 1000 * 3) :=
  ⟨(estimateCost_formula "m" 1000 200 40 2 []).1 (by simp),
   (estimateCost_formula "m" 1000 200 40 2
      [{ model := "m", input_per_1k := 2, output_per_1k := 3, currency := "USD" }]).2
      { model := "m", input_per_1k := 2, output_per_1k := 3, currency := "USD" } rfl⟩

/-- C9 counterexample: a newline is a control character, yet `toCSV`'s
`safeText` leaves it untouched in the `case_id` field (its replacement class
skips tab, LF and CR), contradicting the claim that every control character
in the CSV text fields is replaced with a space. -/
theorem csv_newline_preserved :
    (mkCsvRecord { case_id := "a\nb", model := "m", pass := 1, critical := 0, high := 0,
                   medium := 0, low := 0, latency_ms := 0, input_tokens := 0,
                   output_tokens := 0, cost_usd := 0 }).case_id = "a\nb" ∧
    isControlChar '\n' = true ∧ '\n' ∈ "a\nb".data ∧ '\n' ≠ ' ' := by
  refine ⟨?_, by decide, by decide, by decide⟩
  decide

/-- C9 (amended): in the CSV text fields (`case_id` and `model`), every
character of the class `U+0000`–`U+0008`, `U+000B`, `U+000C`,
`U+000E`–`U+001F` is replaced with a space (tab, line feed and carriage
return are preserved); all other characters pass through unchanged, so the
output contains no character of the replaced class. -/
theorem csv_ctl_replacement (r : ComplianceRow) :
    (mkCsvRecord r).case_id.data =
      r.case_id.data.map (fun c => if strippedCtl c then ' ' else c) ∧
    (∀ ch ∈ (mkCsvRecord r).case_id.data, strippedCtl ch = false) ∧
    (mkCsvRecord r).model.data =
      r.model.data.map (fun c => if strippedCtl c then ' ' else c) ∧
    (∀ ch ∈ (mkCsvRecord r).model.data, strippedCtl ch = false) := by
  have hmem : ∀ (s : String), ∀ ch ∈ (safeText s).data, strippedCtl ch = false := by
    intro s ch hch
    simp only [safeText, String.mk] at hch
    rcases List.mem_map.mp hch with ⟨c, _, rfl⟩
    by_cases hc : strippedCtl c = true
    · rw [if_pos hc]; decide
    · rw [if_neg hc]; simpa using hc
  exact ⟨rfl, hmem r.case_id, rfl, hmem r.model⟩

/-- C9 witness: the replacement property instantiated on a row whose
`case_id` holds a NUL character. -/
theorem csv_ctl_replacement_witness :
    (mkCsvRecord { case_id := "a\x00b", model := "m", pass := 1, critical := 0, high := 0,
                   medium := 0, low := 0, latency_ms := 0, input_tokens := 0,
                   output_tokens := 0, cost_usd := 0 }).case_id.data =
      "a\x00b".data.map (fun c => if strippedCtl c then ' ' else c) :=
  (csv_ctl_replacement
    { case_id := "a\x00b", model := "m", pass := 1, critical := 0, high := 0,
      medium := 0, low := 0, latency_ms := 0, input_tokens := 0,
      output_tokens := 0, cost_usd := 0 }).1

/-! ## Sorting lemmas (for the reporters' row ordering) -/

/-- Equality of strings follows from equality of their character lists. -/
lemma stringDataInj {a b : String} (h : a.data = b.data) : a = b := by
  cases a; cases b; exact congrArg String.mk (by simpa using h)

/-- `charListLe` is transitive. -/
lemma charListLe_trans : ∀ (a b c : List Char),
    charListLe a b = true → charListLe b c = true → charListLe a c = true := by
  intro a
  induction a with
  | nil => intro b c _ _; rfl
  | cons x xs ih =>
    intro b c hab hbc
    cases b with
    | nil => simp [charListLe] at hab
    | cons y ys =>
      cases c with
      | nil => simp [charListLe] at hbc
      | cons z zs =>
        simp only [charListLe] at hab hbc ⊢
        rcases lt_trichotomy x y with hxy | hxy | hxy
        · rcases lt_trichotomy y z with hyz | hyz | hyz
          · simp [lt_trans hxy hyz]
          · subst hyz; simp [hxy]
          · simp [lt_asymm hyz, hyz] at hbc
        · subst hxy
          rcases lt_trichotomy x z with hxz | hxz | hxz
          · simp [hxz]
          · subst hxz
            simp only [lt_irrefl, if_false] at hab hbc ⊢
            exact ih ys zs hab hbc
          · simp [lt_asymm hxz, hxz] at hbc
        · simp [lt_asymm hxy, hxy] at hab

/-- `charListLe` is total. -/
lemma charListLe_total : ∀ (a b : List Char), (charListLe a b || charListLe b a) = true := by
  intro a
  induction a with
  | nil => intro b; simp [charListLe]
  | cons x xs ih =>
    intro b
    cases b with
    | nil => simp [charListLe]
    | cons y ys =>
      simp only [charListLe]
      rcases lt_trichotomy x y with h | h | h
      · simp [h]
      · subst h
        simp only [lt_irrefl, if_false]
        exact ih ys
      · simp [h, lt_asymm h]

/-- `charListLe` is antisymmetric. -/
lemma charListLe_antisymm : ∀ (a b : List Char),
    charListLe a b = true → charListLe b a = true → a = b := by
  intro a
  induction a with
  | nil =>
    intro b _ hba
    cases b with
    | nil => rfl
    | cons y ys => simp [charListLe] at hba
  | cons x xs ih =>
    intro b hab hba
    cases b with
    | nil => simp [charListLe] at hab
    | cons y ys =>
      simp only [charListLe] at hab hba
      rcases lt_trichotomy x y with h | h | h
      · simp [h, lt_asymm h] at hba
      · subst h
        simp only [lt_irrefl, if_false] at hab hba
        rw [ih ys hab hba]
      · simp [h, lt_asymm h] at hab

/-- Strict comparison is non-strict comparison plus inequality. -/
lemma charListLt_iff : ∀ (a b : List Char),
    charListLt a b = true ↔ (charListLe a b = true ∧ a ≠ b) := by
  intro a
  induction a with
  | nil =>
    intro b
    cases b with
    | nil => simp [charListLt, charListLe]
    | cons y ys => simp [charListLt, charListLe]
  | cons x xs ih =>
    intro b
    cases b with
    | nil => simp [charListLt, charListLe]
    | cons y ys =>
      simp only [charListLt, charListLe]
      rcases lt_trichotomy x y with h | h | h
      · have hne : (x :: xs : List Char) ≠ y :: ys := by
          intro hc
          cases hc
          exact lt_irrefl x h
        simp [h, hne]
      · subst h
        simp only [lt_irrefl, if_false, ih, ne_eq, List.cons.injEq, true_and]
      · simp [h, lt_asymm h]

/-- Transitivity of `strLe`. -/
lemma strLe_trans {a b c : String} (h1 : strLe a b = true) (h2 : strLe b c = true) :
    strLe a c = true :=
  charListLe_trans a.data b.data c.data h1 h2

/-- Antisymmetry of `strLe`. -/
lemma strLe_antisymm {a b : String} (h1 : strLe a b = true) (h2 : strLe b a = true) :
    a = b :=
  stringDataInj (charListLe_antisymm a.data b.data h1 h2)

/-- `strLt` is `strLe` plus inequality. -/
lemma strLt_iff {a b : String} : strLt a b = true ↔ (strLe a b = true ∧ a ≠ b) := by
  unfold strLt strLe
  rw [charListLt_iff]
  constructor
  · rintro ⟨hle, hne⟩
    exact ⟨hle, fun h => hne (by rw [h])⟩
  · rintro ⟨hle, hne⟩
    exact ⟨hle, fun h => hne (stringDataInj h)⟩

/-- The row comparator is transitive. -/
lemma rowLe_trans (a b c : ComplianceRow)
    (hab : rowLe a b = true) (hbc : rowLe b c = true) : rowLe a c = true := by
  unfold rowLe at hab hbc ⊢
  by_cases h1 : a.case_id = b.case_id <;> by_cases h2 : b.case_id = c.case_id
  · rw [if_pos h1] at hab
    rw [if_pos h2] at hbc
    rw [if_pos (h1.trans h2)]
    exact strLe_trans hab hbc
  · rw [if_neg h2] at hbc
    rw [if_neg (fun h3 => h2 (h1 ▸ h3)), h1]
    exact hbc
  · rw [if_neg h1] at hab
    rw [if_neg (fun h3 => h1 (h3.trans h2.symm)), ← h2]
    exact hab
  · rw [if_neg h1] at hab
    rw [if_neg h2] at hbc
    have h3 : ¬ a.case_id = c.case_id := fun h3 =>
      h1 (strLe_antisymm hab (h3 ▸ hbc))
    rw [if_neg h3]
    exact strLe_trans hab hbc

/-- The row comparator is total. -/
lemma rowLe_total (a b : ComplianceRow) : (rowLe a b || rowLe b a) = true := by
  unfold rowLe
  by_cases h : a.case_id = b.case_id
  · rw [if_pos h, if_pos h.symm]
    exact charListLe_total _ _
  · rw [if_neg h, if_neg (fun hh => h hh.symm)]
    exact charListLe_total _ _

/-- The row comparator is the lexicographic `(case_id, model)` order. -/
lemma rowLe_iff (a b : ComplianceRow) :
    rowLe a b = true ↔
      (strLt a.case_id b.case_id = true ∨
        (a.case_id = b.case_id ∧ strLe a.model b.model = true)) := by
  unfold rowLe
  by_cases h : a.case_id = b.case_id
  · rw [if_pos h]
    constructor
    · intro hm; exact Or.inr ⟨h, hm⟩
    · rintro (hlt | ⟨_, hm⟩)
      · exact absurd (strLt_iff.mp hlt).2 (by simp [h])
      · exact hm
  · rw [if_neg h]
    constructor
    · intro hle; exact Or.inl (strLt_iff.mpr ⟨hle, h⟩)
    · rintro (hlt | ⟨heq, _⟩)
      · exact (strLt_iff.mp hlt).1
      · exact absurd heq h

/-- C7: the CSV record list, the HTML detailed-results table and the PDF
table all present the rows in the same order — the stable sort of the run's
rows by `case_id` ascending, then `model` ascending. -/
theorem reporters_row_order (b : RunBundle) :
    toCSVRecords b.rows = (sortDetailedRows b.rows).map mkCsvRecord ∧
    htmlDetailedRows b = (sortDetailedRows b.rows).map htmlRowCells ∧
    pdfDetailedRows b = (sortDetailedRows b.rows).map pdfRowCells ∧
    (sortDetailedRows b.rows).Perm b.rows ∧
    (sortDetailedRows b.rows).Pairwise (fun x y =>
      strLt x.case_id y.case_id = true ∨
        (x.case_id = y.case_id ∧ strLe x.model y.model = true)) := by
  refine ⟨rfl, rfl, rfl, List.mergeSort_perm b.rows rowLe, ?_⟩
  have hs := List.sorted_mergeSort rowLe_trans rowLe_total b.rows
  exact List.Pairwise.imp (fun hab => (rowLe_iff _ _).mp hab) hs

/-- C7 witness: the common ordering property instantiated on a concrete
two-row bundle. -/
theorem reporters_row_order_witness :
    (sortDetailedRows [
      { case_id := "c2", model := "m1", pass := 1, critical := 0, high := 0, medium := 0,
        low := 0, latency_ms := 1, input_tokens := 1, output_tokens := 1, cost_usd := 0 },
      { case_id := "c1", model := "m2", pass := 0, critical := 1, high := 0, medium := 0,
        low := 0, latency_ms := 2, input_tokens := 2, output_tokens := 2, cost_usd := 0 }]).Perm
      [{ case_id := "c2", model := "m1", pass := 1, critical := 0, high := 0, medium := 0,
         low := 0, latency_ms := 1, input_tokens := 1, output_tokens := 1, cost_usd := 0 },
       { case_id := "c1", model := "m2", pass := 0, critical := 1, high := 0, medium := 0,
         low := 0, latency_ms := 2, input_tokens := 2, output_tokens := 2, cost_usd := 0 }] :=
  (reporters_row_order
    { runId := "r", specId := "s", createdAt := "2024-01-01",
      rows := [
        { case_id := "c2", model := "m1", pass := 1, critical := 0, high := 0, medium := 0,
          low := 0, latency_ms := 1, input_tokens := 1, output_tokens := 1, cost_usd := 0 },
        { case_id := "c1", model := "m2", pass := 0, critical := 1, high := 0, medium := 0,
          low := 0, latency_ms := 2, input_tokens := 2, output_tokens := 2, cost_usd := 0 }],
      totals := { totalCases := 2, totalRows := 2, byModel := [] } }).2.2.2.1

/-! ## Orchestrator lemmas and C8 -/

/-- `appendResult` with the empty contribution on the left. -/
lemma appendResult_empty_left (a : JobResult) : appendResult emptyResult a = a := by
  simp [appendResult, emptyResult]

/-- `appendResult` is associative. -/
lemma appendResult_assoc (a b c : JobResult) :
    appendResult (appendResult a b) c = appendResult a (appendResult b c) := by
  simp [appendResult, List.append_assoc]

/-- Running a concatenation of job lists concatenates the contributions. -/
lemma runPairs_append (chat : ChatRequest → Except ChatError ChatResponse)
    (parseVerdict : String → Option AuditorVerdict) (ctx : RunCtx)
    (lat : Case → String → Nat) :
    ∀ l1 l2 : List (Case × String),
      runPairs chat parseVerdict ctx lat (l1 ++ l2) =
        appendResult (runPairs chat parseVerdict ctx lat l1)
          (runPairs chat parseVerdict ctx lat l2) := by
  intro l1 l2
  induction l1 with
  | nil => simp [runPairs, appendResult_empty_left]
  | cons p t ih =>
    simp only [List.cons_append, runPairs, List.append_eq, ih, appendResult_assoc]

/-- C8: a job whose generation call fails contributes exactly one
`JobError` with stage `"generate"` carrying the case id, the model id and
the error message; it contributes no `ComplianceRow` and no JSONL line, and
its only outgoing chat call is the generation call (no audit call is
attempted). The run is not aborted: in any job list containing this job, the
rows and JSONL lines of the run equal those of the same run without the
failing job, and the error lists of the surrounding jobs are unchanged
around the recorded generation error. -/
theorem generationFailure_isolated
    (chat : ChatRequest → Except ChatError ChatResponse)
    (parseVerdict : String → Option AuditorVerdict) (ctx : RunCtx)
    (lat : Case → String → Nat) (c : Case) (modelId : String)
    (p1 p2 : List (Case × String)) (e : ChatError)
    (hfail : chat (genRequest ctx.temperature ctx.max_tokens c modelId) =
      Except.error e) :
    (runJob chat parseVerdict ctx c modelId (lat c modelId)).rows = [] ∧
    (runJob chat parseVerdict ctx c modelId (lat c modelId)).jsonl = [] ∧
    (runJob chat parseVerdict ctx c modelId (lat c modelId)).calls =
      [("generate", genRequest ctx.temperature ctx.max_tokens c modelId)] ∧
    (runJob chat parseVerdict ctx c modelId (lat c modelId)).errors =
      [{ case_id := c.id, model := modelId, stage := "generate",
         status := extractHttpStatus (msgOr e.message "Generation failed."),
         message := msgOr e.message "Generation failed." }] ∧
    (runPairs chat parseVerdict ctx lat (p1 ++ (c, modelId) :: p2)).rows =
      (runPairs chat parseVerdict ctx lat (p1 ++ p2)).rows ∧
    (runPairs chat parseVerdict ctx lat (p1 ++ (c, modelId) :: p2)).jsonl =
      (runPairs chat parseVerdict ctx lat (p1 ++ p2)).jsonl ∧
    (runPairs chat parseVerdict ctx lat (p1 ++ (c, modelId) :: p2)).errors =
      (runPairs chat parseVerdict ctx lat p1).errors ++
        [{ case_id := c.id, model := modelId, stage := "generate",
           status := extractHttpStatus (msgOr e.message "Generation failed."),
           message := msgOr e.message "Generation failed." }] ++
        (runPairs chat parseVerdict ctx lat p2).errors := by
  have hjob : runJob chat parseVerdict ctx c modelId (lat c modelId) =
      { rows := []
        jsonl := []
        errors := [{ case_id := c.id, model := modelId, stage := "generate",
                     status := extractHttpStatus (msgOr e.message "Generation failed."),
                     message := msgOr e.message "Generation failed." }]
        calls := [("generate", genRequest ctx.temperature ctx.max_tokens c modelId)] } := by
    simp [runJob, hfail]
  have hmid : runPairs chat parseVerdict ctx lat ((c, modelId) :: p2) =
      appendResult (runJob chat parseVerdict ctx c modelId (lat c modelId))
        (runPairs chat parseVerdict ctx lat p2) := rfl
  refine ⟨by rw [hjob], by rw [hjob], by rw [hjob], by rw [hjob], ?_, ?_, ?_⟩
  · rw [runPairs_append, runPairs_append, hmid, hjob]
    simp [appendResult]
  · rw [runPairs_append, runPairs_append, hmid, hjob]
    simp [appendResult]
  · rw [runPairs_append, hmid, hjob]
    simp [appendResult]

/-- Chat capability used by the C8 witness: the generation call of the model
`"bad-model"` fails with an HTTP-style message; every other call succeeds. -/
def chatFailingW : ChatRequest → Except ChatError ChatResponse := fun req =>
  if req.modelId = "bad-model" then Except.error { message := "server error (503)" }
  else Except.ok { content := "All good.", prompt_tokens := 3, completion_tokens := 4 }

/-- Auditor-verdict parser used by the C8 witness (never parses). -/
def parseVerdictW : String → Option AuditorVerdict := fun _ => none

/-- Run configuration used by the C8 witness. -/
def runCtxW : RunCtx :=
  { spec := { id := "s", domain := "general", description := none,
              rules := [{ id := "r1", type := "required_fields",
                          severity := Severity.critical, fields := some ["order_id"],
                          phrases := none, trigger := none,
                          required_phrase_any := none, max_words := none }] }
    verifierMode := VerifierMode.local_only
    auditorModelId := "aud"
    auditorSystemPrompt := "You are a strict compliance auditor."
    temperature := 0
    max_tokens := 64
    rates := [] }

/-- Case used by the C8 witness. -/
def caseW : Case := { id := "c1", task := "t", context := "" }

/-- Latency assignment used by the C8 witness. -/
def latW : Case → String → Nat := fun _ _ => 5

/-- C8 witness: with one healthy sibling job, the failing job contributes
only its `generate`-stage error and the sibling's row survives. -/
theorem generationFailure_isolated_witness :
    (runJob chatFailingW parseVerdictW runCtxW caseW "bad-model" (latW caseW "bad-model")).rows = [] ∧
    (runJob chatFailingW parseVerdictW runCtxW caseW "bad-model" (latW caseW "bad-model")).jsonl = [] ∧
    (runJob chatFailingW parseVerdictW runCtxW caseW "bad-model" (latW caseW "bad-model")).calls =
      [("generate", genRequest runCtxW.temperature runCtxW.max_tokens caseW "bad-model")] ∧
    (runJob chatFailingW parseVerdictW runCtxW caseW "bad-model" (latW caseW "bad-model")).errors =
      [{ case_id := caseW.id, model := "bad-model", stage := "generate",
         status := extractHttpStatus (msgOr (ChatError.message { message := "server error (503)" }) "Generation failed."),
         message := msgOr (ChatError.message { message := "server error (503)" }) "Generation failed." }] ∧
    (runPairs chatFailingW parseVerdictW runCtxW latW
        ([(caseW, "good-model")] ++ (caseW, "bad-model") :: [])).rows =
      (runPairs chatFailingW parseVerdictW runCtxW latW ([(caseW, "good-model")] ++ [])).rows ∧
    (runPairs chatFailingW parseVerdictW runCtxW latW
        ([(caseW, "good-model")] ++ (caseW, "bad-model") :: [])).jsonl =
      (runPairs chatFailingW parseVerdictW runCtxW latW ([(caseW, "good-model")] ++ [])).jsonl ∧
    (runPairs chatFailingW parseVerdictW runCtxW latW
        ([(caseW, "good-model")] ++ (caseW, "bad-model") :: [])).errors =
      (runPairs chatFailingW parseVerdictW runCtxW latW [(caseW, "good-model")]).errors ++
        [{ case_id := caseW.id, model := "bad-model", stage := "generate",
           status := extractHttpStatus (msgOr (ChatError.message { message := "server error (503)" }) "Generation failed."),
           message := msgOr (ChatError.message { message := "server error (503)" }) "Generation failed." }] ++
        (runPairs chatFailingW parseVerdictW runCtxW latW []).errors :=
  generationFailure_isolated chatFailingW parseVerdictW runCtxW latW caseW "bad-model"
    [(caseW, "good-model")] [] { message := "server error (503)" } rfl

end ModelSpecHarness
